import Mathlib

/-!
Verification development for the rodeo-agent repository.

Shallow embedding of the tool-calling conversation loop and its helpers:
SQL validation and execution (src/tools.js), result truncation
(src/ai.js smartTruncate family and the formatToolResult history
truncation), streamed tool-call argument accumulation (src/ai.js),
per-call tool execution (src/ai.js), the batch_tool (src/tools.js),
and the chat conversation loop (src/ai.js handleChat).

JavaScript strings are modelled as Lean `String`/`List Char`; machine
integers do not occur (all counters are small natural numbers); absent
or `null` object fields are modelled with `Option`; thrown exceptions
with `Except`.  Real time (tool timeouts) and genuine concurrency
(Promise.all) are not modelled: the batch runs its invocations in
input order, which is the order `Promise.all` delivers results in.
-/

/- ===================================================================
   JS string primitives used by tools.js validateSqlQuery
   =================================================================== -/

/-- Whitespace class of the JS regex `\s` / `String.prototype.trim`,
restricted to the ASCII range (the queries at issue are ASCII SQL). -/
def jsIsSpace (c : Char) : Bool :=
  c = ' ' || c = '\t' || c = '\n' || c = '\r' || c = '\x0b' || c = '\x0c'

/-- Word-character class of the JS regex `\w` = `[A-Za-z0-9_]`. -/
def jsIsWordChar (c : Char) : Bool :=
  ('a' ≤ c && c ≤ 'z') || ('A' ≤ c && c ≤ 'Z') || ('0' ≤ c && c ≤ '9') || c = '_'

/-- `String.prototype.trim`: drop leading and trailing whitespace. -/
def jsTrim (l : List Char) : List Char :=
  ((l.dropWhile jsIsSpace).reverse.dropWhile jsIsSpace).reverse

/-- `String.prototype.toLowerCase`, ASCII range. -/
def jsToLower (l : List Char) : List Char :=
  l.map Char.toLower

/-- Substring test: JS `String.prototype.includes(pat)`. -/
def containsSub (pat : List Char) (l : List Char) : Bool :=
  match l with
  | [] => pat.isEmpty
  | _ :: rest => pat.isPrefixOf l || containsSub pat rest

/-- Does some suffix of `l` satisfy `p`?  Backbone of regex searches
(`RegExp.prototype.test` scans every start position). -/
def anySuffix (p : List Char → Bool) (l : List Char) : Bool :=
  match l with
  | [] => p []
  | _ :: rest => p l || anySuffix p rest

/-- Match of `;\s*(drop|delete|update|insert|create|alter|truncate)`
anchored at the head of `l`. -/
def semiDangerAt (l : List Char) : Bool :=
  match l with
  | ';' :: rest =>
    let r := rest.dropWhile jsIsSpace
    ["drop", "delete", "update", "insert", "create", "alter", "truncate"].any
      (fun k => k.data.isPrefixOf r)
  | _ => false

/-- The regex `;\s*(drop|delete|update|insert|create|alter|truncate)`. -/
def matchSemiDanger (l : List Char) : Bool :=
  anySuffix semiDangerAt l

/-- Match of `union\s+select` anchored at the head of `l`: the literal
`union`, at least one whitespace, then `select`. -/
def unionSelectAt (l : List Char) : Bool :=
  "union".data.isPrefixOf l &&
    (let r := l.drop 5
     !(r.takeWhile jsIsSpace).isEmpty && "select".data.isPrefixOf (r.dropWhile jsIsSpace))

/-- The regex `union\s+select`. -/
def matchUnionSelect (l : List Char) : Bool :=
  anySuffix unionSelectAt l

/-- Scan for a closing `*/` with no line terminator before it (the JS
`.` in `/\*.*\*\//` does not match `\n` or `\r`). -/
def blockCommentCloseAt (l : List Char) : Bool :=
  match l with
  | [] => false
  | c :: rest =>
    if "*/".data.isPrefixOf l then true
    else if c = '\n' || c = '\r' then false
    else blockCommentCloseAt rest

/-- Match of `/\*.*\*\//` anchored at the head of `l`. -/
def blockCommentAt (l : List Char) : Bool :=
  "/*".data.isPrefixOf l && blockCommentCloseAt (l.drop 2)

/-- The regex `/\*.*\*\//` (a complete block comment on one line). -/
def matchBlockComment (l : List Char) : Bool :=
  anySuffix blockCommentAt l

/-- Match of `^\s*kw\s+` against `l`: optional leading whitespace, the
keyword, then at least one whitespace character. -/
def startsKeywordSpace (kw : String) (l : List Char) : Bool :=
  let r := l.dropWhile jsIsSpace
  kw.data.isPrefixOf r &&
    (match r.drop kw.length with
     | c :: _ => jsIsSpace c
     | [] => false)

/-- First match of `from\s+(\w+)` anchored at the head of `l`; returns
the captured table name. -/
def fromTableAt (l : List Char) : Option (List Char) :=
  if "from".data.isPrefixOf l then
    let r := l.drop 4
    if (r.takeWhile jsIsSpace).isEmpty then none
    else
      let w := (r.dropWhile jsIsSpace).takeWhile jsIsWordChar
      if w.isEmpty then none else some w
  else none

/-- Leftmost match of `from\s+(\w+)` (JS `String.prototype.match`). -/
def findFromTable (l : List Char) : Option (List Char) :=
  match l with
  | [] => none
  | _ :: rest =>
    match fromTableAt l with
    | some w => some w
    | none => findFromTable rest

/- ===================================================================
   validateSqlQuery / executeSqlQuery  (src/tools.js lines 61-256 and
   336-455)
   =================================================================== -/

/-- The `commonTables` names of tools.js (lower case, as compared). -/
def commonTableNames : List String := ["frpindx", "frpair", "frpsec"]

/-- Result object of `validateSqlQuery`.  The advisory `suggestions`
payloads of the source (example-query text shown to the model) are
elided; `valid`, `requiresApproval`, `error` and `warnings` are kept.
Absent fields are `none` / `[]`. -/
structure ValidationResult where
  valid : Bool
  requiresApproval : Bool := false
  error : Option String := none
  warnings : List String := []
deriving DecidableEq

/-- The performance-warning list of `validateSqlQuery` (tools.js lines
234-241). -/
def sqlWarningsOf (normalized : List Char) : List String :=
  (if !(containsSub "limit".data normalized) && containsSub "select *".data normalized
   then ["Consider adding LIMIT clause to prevent returning large datasets"] else []) ++
  (if containsSub "select *".data normalized && containsSub "where".data normalized
   then ["Consider selecting specific columns instead of * for better performance"] else [])

/-- The rejection object for a missing/non-string/empty-string query. -/
def vrNonString : ValidationResult :=
  { valid := false, error := some "Query must be a non-empty string" }

/-- The rejection object for a whitespace-only query. -/
def vrEmpty : ValidationResult :=
  { valid := false, error := some "Query cannot be empty" }

/-- The rejection object for the `multiple_statements` pattern. -/
def vrMulti : ValidationResult :=
  { valid := false,
    error := some "Multiple SQL statements detected. Only single SELECT queries are allowed." }

/-- The generic rejection object for a dangerous pattern. -/
def vrDangerous : ValidationResult :=
  { valid := false, error := some "Query contains potentially dangerous patterns" }

/-- The rejection object for the `comments` patterns. -/
def vrComments : ValidationResult :=
  { valid := false, error := some "SQL comments are not allowed for security reasons" }

/-- The approval-requiring object for an UPDATE/INSERT/DELETE query. -/
def vrApproval (t : String) : ValidationResult :=
  { valid := false, requiresApproval := true,
    error := some (t ++ " queries require user approval") }

/-- The rejection object for a query not starting with `select`. -/
def vrNotAllowed (normalized : List Char) : ValidationResult :=
  { valid := false,
    error := some
      (String.mk ((normalized.takeWhile (fun c => !jsIsSpace c)).map Char.toUpper) ++
        " queries are not allowed. Only SELECT queries are permitted.") }

/-- The rejection object for an unknown table name. -/
def vrUnknownTable (tbl : List Char) : ValidationResult :=
  { valid := false,
    error := some ("Table '" ++ String.mk tbl ++ "' might not exist or be accessible") }

/-- The acceptance object, with performance warnings. -/
def vrOk (normalized : List Char) : ValidationResult :=
  { valid := true, warnings := sqlWarningsOf normalized }

/-- The body of `validateSqlQuery` past the type/emptiness guards,
operating on the trimmed lower-cased query text: the dangerous-pattern
tests, the data-modifying-pattern tests, the SELECT-prefix test and
the table-name test, in source order (tools.js lines 83-255). -/
def validateNormalized (normalized : List Char) : ValidationResult :=
  if normalized.isEmpty then vrEmpty
  else if matchSemiDanger normalized then vrMulti
  else if matchUnionSelect normalized then vrDangerous
  else if matchBlockComment normalized then vrComments
  else if containsSub "--".data normalized then vrComments
  else if containsSub "xp_cmdshell".data normalized then vrDangerous
  else if containsSub "sp_executesql".data normalized then vrDangerous
  else if startsKeywordSpace "update" normalized then vrApproval "UPDATE"
  else if startsKeywordSpace "insert" normalized then vrApproval "INSERT"
  else if startsKeywordSpace "delete" normalized then vrApproval "DELETE"
  else if !("select".data.isPrefixOf normalized) then vrNotAllowed normalized
  else
    match findFromTable normalized with
    | some tbl =>
      if commonTableNames.contains (String.mk tbl) then vrOk normalized
      else vrUnknownTable tbl
    | none => vrOk normalized

/-- `validateSqlQuery` (tools.js lines 61-256).  The input is
`Option String`: `none` stands for a `null`/`undefined`/non-string
argument (rejected by `!query || typeof query !== 'string'`, a test an
empty string also fails); past the guards the work happens on the
trimmed lower-cased text in `validateNormalized`. -/
def validateSqlQuery (query : Option String) : ValidationResult :=
  match query with
  | none => vrNonString
  | some q =>
    if q = "" then vrNonString
    else validateNormalized (jsToLower (jsTrim q.data))

/-- Return object of `executeSqlQuery` (tools.js lines 336-455).
Fields that a given code path does not set are `none`; the advisory
`suggestions` payloads are elided as in `ValidationResult`. -/
structure SqlOutcome (Row : Type) where
  success : Option Bool := none
  data : Option (List Row) := none
  columns : Option (List String) := none
  rowCount : Option Nat := none
  limitedTo : Option Nat := none
  message : Option String := none
  requiresApproval : Option Bool := none
  query : Option String := none
  error : Option String := none
  warnings : List String := []
deriving DecidableEq

/-- `executeSqlQuery` (tools.js lines 336-455).  The database call
`db.executeFinancialQuery(query)` is the async external boundary; it
is passed in as `dbResult` (`.ok rows` = the resolved row list,
`.error m` = a thrown database error).  `rowKeys` models
`Object.keys(data[0])`. -/
def executeSqlQuery (Row : Type) (rowKeys : Row → List String)
    (query : Option String) (dbResult : Except String (List Row)) : SqlOutcome Row :=
  let validation := validateSqlQuery query
  if validation.valid then
    match dbResult with
    | .ok data =>
      let columns := match data with | [] => [] | r :: _ => rowKeys r
      let totalRows := data.length
      let limitedData := data.take 10
      if totalRows > 10 then
        { success := some true, data := some limitedData, columns := some columns,
          rowCount := some totalRows, limitedTo := some 10,
          message := some ("Query executed successfully. Retrieved " ++ toString totalRows ++
            " rows (showing first 10). You can re-run the same or modified query to see different data - no need to refer back to these results unless helpful for your analysis.") }
      else
        { success := some true, data := some limitedData, columns := some columns,
          rowCount := some totalRows,
          message := some ("Query executed successfully. Retrieved " ++ toString totalRows ++ " rows."),
          warnings := validation.warnings }
    | .error msg =>
      { error := some ("Database error: " ++ msg), query := query }
  else if validation.requiresApproval then
    { requiresApproval := some true,
      query := some (String.mk (jsTrim ((query.getD "").data))),
      message := some "This query will be prepared for user approval" }
  else
    { error := validation.error }

/-- Trimmed, lower-cased text of the request, the `normalizedQuery` of
`validateSqlQuery`; a missing/non-string query normalizes to `[]`. -/
def normalizedQueryOf (query : Option String) : List Char :=
  match query with
  | none => []
  | some q => jsToLower (jsTrim q.data)

/- ===================================================================
   smartTruncate family  (src/ai.js lines 8-74)
   =================================================================== -/

/-- JS `a || b` on an optional number: `0`, `null` and `undefined`
fall through to the default (`result.rowCount || result.data.length`). -/
def jsNumOr (o : Option Nat) (d : Nat) : Nat :=
  match o with
  | some n => if n = 0 then d else n
  | none => d

/-- JS template interpolation of an optional number (`undefined` prints
as the string `undefined`). -/
def optNatText (o : Option Nat) : String :=
  match o with
  | some n => toString n
  | none => "undefined"

/-- JS template interpolation of an optional string. -/
def optStrText (o : Option String) : String :=
  match o with
  | some s => s
  | none => "undefined"

/-- `result.availableCategories?.map(c => c.displayName).join(', ') || 'various'`:
the category display names are modelled directly as strings. -/
def categoriesText (o : Option (List String)) : String :=
  match o with
  | none => "various"
  | some l =>
    let s := String.intercalate ", " l
    if s = "" then "various" else s

/-- A knowledge-base entry as used by `truncateDirectLookup`; `content`
is the JS string, modelled as its character list. -/
structure KBEntry where
  id : String
  content : List Char
  truncated : Option Bool := none
deriving DecidableEq

/-- A tool result as seen by the `smartTruncate` family.  `ρ` is the
type of one data/result row; fields a result does not carry are
`none`.  The JS `type` field is `rtype` (`type` is reserved in Lean). -/
structure SmartRes (ρ : Type) where
  success : Option Bool := none
  rtype : Option String := none
  data : Option (List ρ) := none
  results : Option (List ρ) := none
  entry : Option KBEntry := none
  rowCount : Option Nat := none
  originalRowCount : Option Nat := none
  truncated : Option Bool := none
  contextSummary : Option String := none
  totalMatches : Option Nat := none
  totalEntries : Option Nat := none
  category : Option String := none
  availableCategories : Option (List String) := none
deriving DecidableEq

/-- `truncateQueryResults` (ai.js lines 23-35). -/
def truncateQueryResults {ρ : Type} (result : SmartRes ρ) (_maxTokens : Nat) : SmartRes ρ :=
  match result.data with
  | none => result
  | some l =>
    if l.length ≤ 10 then result
    else
      { result with
        data := some (l.take 10), truncated := some true,
        originalRowCount := some (jsNumOr result.rowCount l.length),
        contextSummary := some ("Showing first 10 rows of " ++
          toString (jsNumOr result.rowCount l.length) ++ " total rows") }

/-- `truncateSearchResults` (ai.js lines 37-46). -/
def truncateSearchResults {ρ : Type} (result : SmartRes ρ) (_maxTokens : Nat) : SmartRes ρ :=
  match result.results with
  | none => result
  | some l =>
    if l.length ≤ 5 then result
    else
      { result with
        results := some (l.take 5), truncated := some true,
        contextSummary := some ("Showing top 5 of " ++ optNatText result.totalMatches ++
          " matches. Categories: " ++ categoriesText result.availableCategories) }

/-- `truncateCategoryBrowse` (ai.js lines 48-57). -/
def truncateCategoryBrowse {ρ : Type} (result : SmartRes ρ) (_maxTokens : Nat) : SmartRes ρ :=
  match result.results with
  | none => result
  | some l =>
    if l.length ≤ 8 then result
    else
      { result with
        results := some (l.take 8), truncated := some true,
        contextSummary := some ("Showing first 8 of " ++ optNatText result.totalEntries ++
          " entries in " ++ optStrText result.category) }

/-- `truncateDirectLookup` (ai.js lines 59-74): `!result.entry?.content`
also rejects an empty content string. -/
def truncateDirectLookup {ρ : Type} (result : SmartRes ρ) (maxTokens : Nat) : SmartRes ρ :=
  match result.entry with
  | none => result
  | some e =>
    if e.content.isEmpty then result
    else if e.content.length ≤ maxTokens then result
    else
      { result with
        entry := some { e with content := e.content.take maxTokens ++ "...".data,
                               truncated := some true },
        contextSummary := some ("Content truncated. Full entry ID: " ++ e.id) }

/-- `smartTruncate` (ai.js lines 8-21): results whose `success` is
falsy pass through; otherwise dispatch on `toolResult.type || 'default'`. -/
def smartTruncate {ρ : Type} (toolResult : SmartRes ρ) (maxTokens : Nat) : SmartRes ρ :=
  match toolResult.success with
  | some true =>
    (match toolResult.rtype with
     | some t =>
       if t = "" then truncateQueryResults toolResult maxTokens
       else if t = "search_results" then truncateSearchResults toolResult maxTokens
       else if t = "category_browse" then truncateCategoryBrowse toolResult maxTokens
       else if t = "direct_lookup" then truncateDirectLookup toolResult maxTokens
       else truncateQueryResults toolResult maxTokens
     | none => truncateQueryResults toolResult maxTokens)
  | _ => toolResult

/- ===================================================================
   formatToolResult history truncation  (src/ai.js lines 771-811)
   =================================================================== -/

/-- One element of the `data` array a tool result carries into history
formatting: either a real row or the synthetic `_note` marker object
inserted by the truncation. -/
inductive HRow (ρ : Type) where
  | row (x : ρ)
  | note (s : String)
deriving DecidableEq

/-- The parsed tool-result shape handled by the `parsed.data` branch of
`formatToolResult`; fields the source never writes on this path
(`truncated`, `contextSummary`) are carried to show they pass through
unchanged.  `summaryField` is the JS `_summary` field. -/
structure HistResult (ρ : Type) where
  data : List (HRow ρ)
  truncated : Option Bool := none
  contextSummary : Option String := none
  summaryField : Option String := none
deriving DecidableEq

/-- The `parsed.data.length > 10` truncation of `formatToolResult`
(ai.js lines 776-791): first five rows, a `_note` marker, last five
rows (`slice(-5)`), plus a `_summary`; everything else spreads through. -/
def formatTruncateSql {ρ : Type} (parsed : HistResult ρ) : HistResult ρ :=
  if parsed.data.length > 10 then
    { parsed with
      data := parsed.data.take 5 ++
        [HRow.note ("[Showing first 5 and last 5 of " ++ toString parsed.data.length ++
          " total rows]")] ++
        parsed.data.drop (parsed.data.length - 5),
      summaryField := some ("Retrieved " ++ toString parsed.data.length ++ " rows from query") }
  else parsed

/- ===================================================================
   Streamed tool-call argument accumulation  (src/ai.js lines 523-529
   direct-JSON-chunk path, lines 619-626 line-parsing path)
   =================================================================== -/

/-- A JS string-or-null value as it appears in
`toolCallDelta.function.arguments`: absent/undefined, `null`, or a
string. -/
inductive JsStrVal where
  | undef
  | jsNull
  | str (s : String)
deriving DecidableEq

/-- JS truthiness of such a value (`if (toolCallDelta.function.arguments)`). -/
def jsTruthy (v : JsStrVal) : Bool :=
  match v with
  | .str s => s ≠ ""
  | _ => false

/-- Argument-fragment step of the line-parsing path (ai.js lines
619-626): the outer truthiness guard, then the
`arguments === 'null' || arguments === null` check (whose `=== null`
arm is unreachable past the guard), else concatenation. -/
def applyArgDeltaLine (cur : String) (frag : JsStrVal) : String :=
  if jsTruthy frag then
    match frag with
    | .str s => if s = "null" then "\x7b\x7d" else cur ++ s
    | .jsNull => "\x7b\x7d"
    | .undef => cur
  else cur

/-- Argument-fragment step of the direct whole-JSON-chunk path (ai.js
lines 523-529); textually the same logic as the line path. -/
def applyArgDeltaDirect (cur : String) (frag : JsStrVal) : String :=
  if jsTruthy frag then
    match frag with
    | .str s => if s = "null" then "\x7b\x7d" else cur ++ s
    | .jsNull => "\x7b\x7d"
    | .undef => cur
  else cur

/- ===================================================================
   Per-call tool execution in handleChat  (src/ai.js lines 650-756)
   =================================================================== -/

/-- An accumulated tool call as handleChat builds it from the stream. -/
structure ChatToolCall where
  id : String
  name : String
  input : String
deriving DecidableEq

/-- One entry of `executedToolResults`. -/
structure ExecutedToolResult where
  tool_call_id : String
  content : String
deriving DecidableEq

/-- `JSON.stringify({ error: message })` as pushed by the catch arm. -/
def errorContent (message : String) : String :=
  "\x7b\"error\":\"" ++ message ++ "\"\x7d"

/-- The body of handleChat's per-tool-call loop for one call at
position `i` (ai.js lines 652-754).  The whole try block — argument
parsing, SQL default backfill, `executeTool` — is the abstract
`attempt`; `.ok c` is the stringified tool result pushed on success,
`.error m` a thrown exception caught by the catch arm. -/
def processToolCall (attempt : Nat → ChatToolCall → Except String String)
    (i : Nat) (tc : ChatToolCall) : ExecutedToolResult :=
  match attempt i tc with
  | .ok c => { tool_call_id := tc.id, content := c }
  | .error m => { tool_call_id := tc.id, content := errorContent m }

/-- The `for (const toolCall of validToolCalls)` loop: every call is
processed, a failure of one is caught in place and the loop moves on. -/
def executeToolCallsFrom (attempt : Nat → ChatToolCall → Except String String) :
    Nat → List ChatToolCall → List ExecutedToolResult
  | _, [] => []
  | i, tc :: rest => processToolCall attempt i tc :: executeToolCallsFrom attempt (i + 1) rest

/-- Tool execution for a turn's valid tool calls, first call at
position 0. -/
def executeToolCalls (attempt : Nat → ChatToolCall → Except String String)
    (tcs : List ChatToolCall) : List ExecutedToolResult :=
  executeToolCallsFrom attempt 0 tcs

/- ===================================================================
   batch_tool  (src/tools.js lines 971-1082)
   =================================================================== -/

/-- One `{name, arguments}` invocation given to the batch tool; the
argument record is kept opaque as a string. -/
structure BatchInvocation where
  name : String
  args : String
deriving DecidableEq

/-- Behaviour of a registered tool's `execute` on given arguments:
a returned object (only its `success` field matters to the batch
accounting; `none` = the field is absent) or a thrown exception. -/
inductive BatchExec where
  | ret (success : Option Bool)
  | thrown (msg : String)

/-- One element of `batch_results` (after the `index` used for
reordering is stripped).  The spread payload of a successful tool
output beyond its `success` field is elided. -/
structure BatchOutcome where
  tool_name : String
  args : String
  success : Option Bool := none
  error : Option String := none
  timeout : Bool := false
deriving DecidableEq

/-- The per-invocation closure of `batch_tool.execute` (tools.js lines
981-1038): recursive `batch_tool` is rejected, unknown names are
rejected, a thrown `execute` is caught as a per-invocation error.
Tool-class timeouts are real-time behaviour and are not modelled; the
`timed out` substring test on a thrown message is kept. -/
def runBatchInvocation (registry : String → Option (String → BatchExec))
    (inv : BatchInvocation) : BatchOutcome :=
  if inv.name = "batch_tool" then
    { tool_name := inv.name, args := inv.args, success := some false,
      error := some "Recursive batch tool calls are not allowed" }
  else
    match registry inv.name with
    | none =>
      { tool_name := inv.name, args := inv.args, success := some false,
        error := some ("Tool " ++ inv.name ++ " not found") }
    | some f =>
      match f inv.args with
      | .ret s => { tool_name := inv.name, args := inv.args, success := s }
      | .thrown m =>
        { tool_name := inv.name, args := inv.args, success := some false,
          error := some m, timeout := containsSub "timed out".data m.data }

/-- The aggregate object returned by `batch_tool.execute`.
`partial_failure` is `false` when the source leaves the field unset. -/
structure BatchResult where
  success : Bool
  batch_results : List BatchOutcome
  total_invocations : Nat
  successful_invocations : Nat
  message : String
  partial_failure : Bool := false
deriving DecidableEq

/-- `batch_tool.execute` (tools.js lines 979-1081) on the non-timeout
path: all invocations run, results come back in input order
(`Promise.all` preserves order, making the `sort` by `index` the
identity), `successful` counts outcomes with `success !== false`. -/
def batch_tool_execute (registry : String → Option (String → BatchExec))
    (invocations : List BatchInvocation) : BatchResult :=
  let batchOutput := invocations.map (runBatchInvocation registry)
  let successful := (batchOutput.filter (fun r => r.success != some false)).length
  let timedOut := (batchOutput.filter (fun r => r.timeout)).length
  { success := true,
    batch_results := batchOutput,
    total_invocations := invocations.length,
    successful_invocations := successful,
    message := "Batch execution completed: " ++ toString successful ++ "/" ++
      toString invocations.length ++ " tools executed successfully" ++
      (if successful < invocations.length && 0 < timedOut
       then " (" ++ toString timedOut ++ " timed out)" else ""),
    partial_failure := successful < invocations.length }

/- ===================================================================
   The handleChat conversation loop  (src/ai.js lines 428-873)
   =================================================================== -/

/-- A message of the conversation history replayed to the provider. -/
structure ChatMsg where
  role : String
  content : String
deriving DecidableEq

/-- What one iteration's provider stream yields once normalized:
either the adapter/API call throws while opening the stream
(`streamErr`, the catch at ai.js lines 487-492), or it delivers the
text deltas and accumulated tool calls of the turn. -/
inductive Turn where
  | streamErr
  | ok (textDeltas : List String) (toolCalls : List ChatToolCall)

/-- Net effect of running one tool call inside the loop (the try block
of ai.js lines 653-738): `threw` = the block raised (caught at line
739); otherwise `content` is the stringified result stored in
`executedToolResults` and `respAppend` the text the approval /
error / `complete_task` / `message` rules append to `fullResponse`. -/
structure ToolEffect where
  threw : Option String := none
  content : String := ""
  respAppend : String := ""

/-- SSE frames handleChat enqueues (the `type` discriminants of the
`data:` payloads).  The expansion of a `batch_tool` result into
per-invocation `tool_result` frames is collapsed into one frame. -/
inductive Frame where
  | conversation_id
  | iteration (i maxI : Nat)
  | text (s : String)
  | tool_result (toolName : String)
  | tool_error (toolName : String)
  | error (content : String)
  | done
deriving DecidableEq

/-- Termination vocabulary of the spec's LoopState (§4.5), mapped onto
the loop's exit conditions; `loopDisabled`, `noAnalysisTools`,
`notStarted` cover code exits the spec's enum does not name, and
`fuelOut` is the (unreachable) fuel bound of the embedding. -/
inductive TermReason where
  | modelNoTools
  | explicitComplete
  | maxIterationsCap
  | noAnalysisTools
  | loopDisabled
  | streamError
  | notStarted
  | fuelOut
deriving DecidableEq

/-- Request-scoped loop parameters of handleChat. -/
structure LoopConfig where
  enableLoop : Bool
  maxIterations : Nat
  initMessages : List ChatMsg

/-- The analysis-tool list inlined at ai.js line 828. -/
def analysisToolNames : List String :=
  ["execute_sql", "lookup_knowledge_base", "browse_knowledge_base_category",
   "get_knowledge_base_categories", "batch_tool"]

/-- `toolCalls.filter(tc => tc && tc.name)` (ai.js line 647). -/
def validCallsOf (toolCalls : List ChatToolCall) : List ChatToolCall :=
  toolCalls.filter (fun tc => tc.name != "")

/-- The continuation decision of ai.js lines 824-847: with looping
disabled or no executed tools the loop stops; otherwise
`continue_agent` forces another turn, and failing that the turn must
have used an analysis tool, no `complete_task`/`prepare_sql_for_user`,
and be below the cap. -/
def shouldContinueAfter (cfg : LoopConfig) (iter : Nat) (valids : List ChatToolCall) : Bool :=
  if cfg.enableLoop then
    if 0 < valids.length then
      valids.any (fun tc => tc.name == "continue_agent") ||
        (!(valids.any (fun tc => tc.name == "complete_task")) &&
         !(valids.any (fun tc => tc.name == "prepare_sql_for_user")) &&
         valids.any (fun tc => analysisToolNames.contains tc.name) &&
         decide (iter < cfg.maxIterations))
    else false
  else false

/-- Spec §4.5 termination reason of a `done` exit, read off the state
the loop stops in. -/
def classifyExit (cfg : LoopConfig) (valids : List ChatToolCall) (sc : Bool) : TermReason :=
  if valids.isEmpty then .modelNoTools
  else if !cfg.enableLoop then .loopDisabled
  else if sc then .maxIterationsCap
  else if valids.any (fun tc => tc.name == "complete_task") ||
          valids.any (fun tc => tc.name == "prepare_sql_for_user") then .explicitComplete
  else if !(valids.any (fun tc => analysisToolNames.contains tc.name)) then .noAnalysisTools
  else .maxIterationsCap

/-- `executedToolResults` of a turn: one entry per valid call, the
catch arm storing a stringified `{error}` (ai.js lines 679-682 and
743-746). -/
def chatExecuted (execT : ChatToolCall → ToolEffect)
    (valids : List ChatToolCall) : List ExecutedToolResult :=
  valids.map (fun tc =>
    match (execT tc).threw with
    | some m => { tool_call_id := tc.id, content := errorContent m }
    | none => { tool_call_id := tc.id, content := (execT tc).content })

/-- The `tool_result` / `tool_error` frame streamed per valid call. -/
def chatToolFrames (execT : ChatToolCall → ToolEffect)
    (valids : List ChatToolCall) : List Frame :=
  valids.map (fun tc =>
    match (execT tc).threw with
    | some _ => Frame.tool_error tc.name
    | none => Frame.tool_result tc.name)

/-- Text the per-call rules of ai.js lines 726-737 add to
`fullResponse` over the turn (nothing is added on the catch arm). -/
def respAppends (execT : ChatToolCall → ToolEffect) (valids : List ChatToolCall) : String :=
  String.join (valids.map (fun tc =>
    match (execT tc).threw with
    | some _ => ""
    | none => (execT tc).respAppend))

/-- Tool-name/content pairs of the tool-results user message (ai.js
lines 814-817); the name lookup mirrors
`validToolCallsForLoop.find(tc => tc.id === result.tool_call_id)`. -/
def resultItems (valids : List ChatToolCall) (executed : List ExecutedToolResult) :
    List (String × String) :=
  executed.map (fun res =>
    (match valids.find? (fun tc => tc.id == res.tool_call_id) with
     | some tc => tc.name
     | none => "unknown",
     res.content))

/-- The structured user message carrying the turn's tool results back
into history (ai.js lines 819-822); the per-result JSON reformatting
of `formatToolResult` is modelled at value level by
`formatTruncateSql` and enters here only as the stored content. -/
def toolResultsUserMessage (items : List (String × String)) : String :=
  "Here are the results from your tool calls:\n\n" ++
  String.intercalate "\n\n---\n\n"
    (items.map (fun it => "## Tool Result: " ++ it.1 ++ "\n\n" ++ it.2)) ++
  "\n\nIMPORTANT: The tool results above are automatically displayed to the user in a separate section. Your response should ONLY contain your analysis and final answer. DO NOT include any tool result data, knowledge base content, or analysis-result sections in your response. Just provide your analysis and conclusions based on the data you received."

/-- Observable outcome of one chat request's streaming phase. -/
structure LoopRes where
  frames : List Frame
  iterations : Nat
  reason : TermReason
  savedAssistant : Option (String × Option (List ChatToolCall)) := none
  finalMessages : List ChatMsg
deriving DecidableEq

/-- One-or-more iterations of the `while` loop of handleChat (ai.js
lines 440-865), entered with the guard
`shouldContinueLoop && currentIteration < maxIterations` known true;
`fuel ≥ maxIterations - iter` makes the fuel bound unreachable. -/
def chatLoopGo (cfg : LoopConfig) (turns : Nat → Turn) (execT : ChatToolCall → ToolEffect)
    (msgs : List ChatMsg) (iter : Nat) (acc : List Frame) : Nat → LoopRes
  | 0 => { frames := acc, iterations := iter, reason := .fuelOut, finalMessages := msgs }
  | fuel + 1 =>
    let iter' := iter + 1
    let acc1 := acc ++
      (if cfg.enableLoop && decide (1 < iter')
       then [Frame.iteration iter' cfg.maxIterations] else [])
    match turns iter' with
    | .streamErr =>
      { frames := acc1 ++ [Frame.error "AI API error occurred"], iterations := iter',
        reason := .streamError, finalMessages := msgs }
    | .ok textDeltas toolCalls =>
      let valids := validCallsOf toolCalls
      let fullResponse := String.join textDeltas ++ respAppends execT valids
      let acc2 := acc1 ++ textDeltas.map Frame.text ++ chatToolFrames execT valids
      let executed := chatExecuted execT valids
      let msgs' :=
        if cfg.enableLoop then
          msgs ++ [⟨"assistant", fullResponse⟩] ++
            (if executed.isEmpty then []
             else [⟨"user", toolResultsUserMessage (resultItems valids executed)⟩])
        else msgs
      let sc := shouldContinueAfter cfg iter' valids
      if sc && decide (iter' < cfg.maxIterations) then
        chatLoopGo cfg turns execT msgs' iter' acc2 fuel
      else
        { frames := acc2 ++ [Frame.done], iterations := iter',
          reason := classifyExit cfg valids sc,
          savedAssistant := some (fullResponse,
            if toolCalls.isEmpty then none else some toolCalls),
          finalMessages := msgs' }

/-- The streaming phase of handleChat: the `conversation_id` frame,
then the conversation loop.  `turns i` is what iteration `i`'s
provider stream yields, `execT` the effect of each tool call. -/
def chatLoop (cfg : LoopConfig) (turns : Nat → Turn) (execT : ChatToolCall → ToolEffect) :
    LoopRes :=
  if 0 < cfg.maxIterations then
    chatLoopGo cfg turns execT cfg.initMessages 0 [Frame.conversation_id] cfg.maxIterations
  else
    { frames := [Frame.conversation_id], iterations := 0, reason := .notStarted,
      finalMessages := cfg.initMessages }

/- ===================================================================
   Concrete instances used to evaluate the embedding
   =================================================================== -/

/-- A 37-row tool result entering history formatting. -/
def hist37 : HistResult Nat := { data := (List.range 37).map HRow.row }

/-- A 12-row tool result entering history formatting. -/
def hist12 : HistResult Nat := { data := (List.range 12).map HRow.row }

/-- A 5-row tool result entering history formatting. -/
def hist5 : HistResult Nat := { data := (List.range 5).map HRow.row }

/-- A successful 12-row SQL-shaped tool result for `smartTruncate`. -/
def sres12 : SmartRes Nat :=
  { success := some true, data := some (List.range 12), rowCount := some 12 }

/-- Twelve rows coming back from the database. -/
def rows12 : List Nat := List.range 12

/-- A five-call batch for the per-call execution loop. -/
def callsEx : List ChatToolCall :=
  [⟨"1", "t1", ""⟩, ⟨"2", "t2", ""⟩, ⟨"3", "t3", ""⟩, ⟨"4", "t4", ""⟩, ⟨"5", "t5", ""⟩]

/-- An execution behaviour whose third call (position 2) throws. -/
def attemptThrow : Nat → ChatToolCall → Except String String :=
  fun i _ => if i = 2 then .error "boom" else .ok "ok"

/-- The same behaviour with the throw removed. -/
def attemptOk : Nat → ChatToolCall → Except String String :=
  fun _ _ => .ok "ok"

/-- A registry knowing only `evaluate_expression`. -/
def registryEx : String → Option (String → BatchExec) :=
  fun n => if n = "evaluate_expression" then some (fun _ => BatchExec.ret (some true)) else none

/-- A batch containing a recursive invocation, a known tool and an
unknown tool. -/
def invocationsEx : List BatchInvocation :=
  [⟨"batch_tool", "x"⟩, ⟨"evaluate_expression", "y"⟩, ⟨"no_such_tool", "z"⟩]

/-- Tool effects that return quietly. -/
def execNoop : ChatToolCall → ToolEffect := fun _ => {}

/-- A request configuration with the default loop settings
(`ENABLE_LOOP_DEFAULT = true`, `MAX_ITERATIONS = 10`). -/
def cfgDefault : LoopConfig := { enableLoop := true, maxIterations := 10, initMessages := [] }

/-- A request configuration capped at three iterations. -/
def cfgCap3 : LoopConfig := { enableLoop := true, maxIterations := 3, initMessages := [] }

/-- A provider whose stream always fails to open. -/
def turnsErr : Nat → Turn := fun _ => Turn.streamErr

/-- A model that answers in plain text with no tool calls. -/
def turnsText : Nat → Turn := fun _ => Turn.ok ["4"] []

/-- A model that issues one `execute_sql` call every turn. -/
def turnsSql : Nat → Turn := fun _ => Turn.ok [] [⟨"c1", "execute_sql", "\x7b\x7d"⟩]

/-- Scenario predicate of the iteration-cap claim: the turn streams
fine, at least one valid call names an analysis tool, and no
`continue_agent` / `complete_task` / `prepare_sql_for_user` occurs. -/
def analysisOnlyTurn (t : Turn) : Bool :=
  match t with
  | .streamErr => false
  | .ok _ toolCalls =>
    let valids := validCallsOf toolCalls
    valids.any (fun tc => analysisToolNames.contains tc.name) &&
    !(valids.any (fun tc => tc.name == "continue_agent")) &&
    !(valids.any (fun tc => tc.name == "complete_task")) &&
    !(valids.any (fun tc => tc.name == "prepare_sql_for_user"))

/- ===================================================================
   Helper lemmas
   =================================================================== -/

theorem executeToolCallsFrom_length (attempt : Nat → ChatToolCall → Except String String)
    (tcs : List ChatToolCall) : ∀ i, (executeToolCallsFrom attempt i tcs).length = tcs.length := by
  induction tcs with
  | nil => intro i; rfl
  | cons tc rest ih => intro i; simp [executeToolCallsFrom, ih]

theorem executeToolCallsFrom_getElem? (attempt : Nat → ChatToolCall → Except String String)
    (tcs : List ChatToolCall) : ∀ i j,
    (executeToolCallsFrom attempt i tcs)[j]? =
      (tcs[j]?).map (fun tc => processToolCall attempt (i + j) tc) := by
  induction tcs with
  | nil => intro i j; simp [executeToolCallsFrom]
  | cons tc rest ih =>
    intro i j
    cases j with
    | zero => simp [executeToolCallsFrom]
    | succ j' =>
      have harith : i + 1 + j' = i + (j' + 1) := by omega
      simp [executeToolCallsFrom, ih (i + 1) j', harith]

/- ===================================================================
   Claim theorems
   =================================================================== -/

/-- C6 counterexample: the claim says a fragment that is the value
`null` sets the per-call argument buffer to `"{}"`; in the code the
outer truthiness guard `if (toolCallDelta.function.arguments)` skips a
real `null` before the `=== null` check can fire, so the buffer is
left unchanged, on both accumulation paths. -/
theorem arg_null_value_ignored_cex :
    applyArgDeltaLine "abc" JsStrVal.jsNull = "abc" ∧
    applyArgDeltaDirect "abc" JsStrVal.jsNull = "abc" ∧
    applyArgDeltaLine "abc" JsStrVal.jsNull ≠ "\x7b\x7d" := by
  decide

/-- C6 (amended): argument fragments are appended to the per-call
buffer in arrival order; a fragment equal to the literal string
`"null"` sets the buffer to `"{}"` instead of being concatenated,
while a fragment that is the value `null` (or absent, or empty) leaves
the buffer unchanged; the line-parsing path and the direct
whole-JSON-chunk path behave identically. -/
theorem arg_accumulation_null_literal (cur : String) :
    (applyArgDeltaLine cur (JsStrVal.str "null") = "\x7b\x7d" ∧
     applyArgDeltaDirect cur (JsStrVal.str "null") = "\x7b\x7d") ∧
    (applyArgDeltaLine cur JsStrVal.jsNull = cur ∧
     applyArgDeltaDirect cur JsStrVal.jsNull = cur ∧
     applyArgDeltaLine cur JsStrVal.undef = cur ∧
     applyArgDeltaDirect cur JsStrVal.undef = cur) ∧
    (∀ s : String, s ≠ "" → s ≠ "null" →
      applyArgDeltaLine cur (JsStrVal.str s) = cur ++ s ∧
      applyArgDeltaDirect cur (JsStrVal.str s) = cur ++ s) ∧
    (∀ v : JsStrVal, applyArgDeltaLine cur v = applyArgDeltaDirect cur v) := by
  refine ⟨⟨rfl, rfl⟩, ⟨rfl, rfl, rfl, rfl⟩, ?_, ?_⟩
  · intro s h1 h2
    constructor <;> simp [applyArgDeltaLine, applyArgDeltaDirect, jsTruthy, h1, h2]
  · intro v
    cases v <;> rfl

/-- C6 witness: the amended theorem evaluated at buffer `"a"` and
fragment `"xy"`. -/
theorem arg_accumulation_null_literal_witness :
    applyArgDeltaLine "a" (JsStrVal.str "xy") = "a" ++ "xy" ∧
    applyArgDeltaDirect "a" (JsStrVal.str "xy") = "a" ++ "xy" :=
  (arg_accumulation_null_literal "a").2.2.1 "xy" (by decide) (by decide)

/-- C4: the batch tool rejects a recursive `batch_tool` invocation as
an error outcome for that invocation only, runs every other
invocation, keeps `batch_results` in input order, reports
`total_invocations` as the input length and `successful_invocations`
as the count of outcomes whose `success` is not `false`. -/
theorem batch_tool_order_and_counts (registry : String → Option (String → BatchExec))
    (invocations : List BatchInvocation) :
    (batch_tool_execute registry invocations).batch_results.length = invocations.length ∧
    (batch_tool_execute registry invocations).total_invocations = invocations.length ∧
    (batch_tool_execute registry invocations).successful_invocations =
      (((batch_tool_execute registry invocations).batch_results).filter
        (fun r => r.success != some false)).length ∧
    (∀ i : Nat, (batch_tool_execute registry invocations).batch_results[i]? =
      (invocations[i]?).map (runBatchInvocation registry)) ∧
    (∀ (i : Nat) (inv : BatchInvocation), invocations[i]? = some inv → inv.name = "batch_tool" →
      (batch_tool_execute registry invocations).batch_results[i]? =
        some { tool_name := inv.name, args := inv.args, success := some false,
               error := some "Recursive batch tool calls are not allowed" }) := by
  refine ⟨by simp [batch_tool_execute], rfl, rfl, ?_, ?_⟩
  · intro i
    simp [batch_tool_execute]
  · intro i inv hi hname
    simp [batch_tool_execute, hi, runBatchInvocation, hname]

/-- C4 witness: the theorem evaluated on a three-invocation batch whose
first invocation is the recursive one. -/
theorem batch_tool_order_and_counts_witness :
    invocationsEx[0]? = some ⟨"batch_tool", "x"⟩ ∧
    (batch_tool_execute registryEx invocationsEx).batch_results[0]? =
      some { tool_name := "batch_tool", args := "x", success := some false,
             error := some "Recursive batch tool calls are not allowed" } ∧
    (batch_tool_execute registryEx invocationsEx).total_invocations = 3 :=
  ⟨rfl,
   (batch_tool_order_and_counts registryEx invocationsEx).2.2.2.2 0 ⟨"batch_tool", "x"⟩ rfl rfl,
   ((batch_tool_order_and_counts registryEx invocationsEx).2.1).trans (by decide)⟩

/-- C5: tool execution never short-circuits: when exactly the call at
position `k` throws, the per-call loop of handleChat still produces
one outcome per call in input order, outcome `k` carrying the error
message, and every other outcome equal to what it would be had
nothing thrown; on the `batch_tool` path a thrown invocation yields an
outcome marked `success:false` carrying the error message while every
other invocation's outcome is untouched. -/
theorem tool_execution_partial_failure
    (attempt attemptNoThrow : Nat → ChatToolCall → Except String String)
    (tcs : List ChatToolCall) (k : Nat) (tck : ChatToolCall) (msg : String)
    (hget : tcs[k]? = some tck)
    (hthrow : attempt k tck = .error msg)
    (hagree : ∀ j, j ≠ k → attempt j = attemptNoThrow j) :
    ((executeToolCalls attempt tcs).length = tcs.length ∧
    (executeToolCalls attempt tcs)[k]? =
      some { tool_call_id := tck.id, content := errorContent msg } ∧
    (∀ j, j ≠ k →
      (executeToolCalls attempt tcs)[j]? = (executeToolCalls attemptNoThrow tcs)[j]?)) ∧
    (∀ (registry : String → Option (String → BatchExec)) (invs : List BatchInvocation)
        (i : Nat) (inv : BatchInvocation) (f : String → BatchExec) (m : String),
      invs[i]? = some inv → inv.name ≠ "batch_tool" → registry inv.name = some f →
      f inv.args = BatchExec.thrown m →
      (batch_tool_execute registry invs).batch_results.length = invs.length ∧
      (batch_tool_execute registry invs).batch_results[i]? =
        some { tool_name := inv.name, args := inv.args, success := some false,
               error := some m, timeout := containsSub "timed out".data m.data } ∧
      (∀ j : Nat, (batch_tool_execute registry invs).batch_results[j]? =
        (invs[j]?).map (runBatchInvocation registry))) := by
  refine ⟨⟨executeToolCallsFrom_length attempt tcs 0, ?_, ?_⟩, ?_⟩
  · simp [executeToolCalls, executeToolCallsFrom_getElem?, hget, processToolCall, hthrow]
  · intro j hj
    have h := hagree j hj
    simp [executeToolCalls, executeToolCallsFrom_getElem?, processToolCall, h]
  · intro registry invs i inv f m hi hnb hreg hf
    refine ⟨by simp [batch_tool_execute], ?_, ?_⟩
    · simp [batch_tool_execute, hi, runBatchInvocation, hnb, hreg, hf]
    · intro j
      simp [batch_tool_execute]

/-- C5 witness: a batch of five calls whose third call throws. -/
theorem tool_execution_partial_failure_witness :
    (executeToolCalls attemptThrow callsEx).length = 5 ∧
    (executeToolCalls attemptThrow callsEx)[2]? =
      some { tool_call_id := "3", content := errorContent "boom" } ∧
    (executeToolCalls attemptThrow callsEx)[3]? = (executeToolCalls attemptOk callsEx)[3]? := by
  have h := tool_execution_partial_failure attemptThrow attemptOk callsEx 2 ⟨"3", "t3", ""⟩
    "boom" rfl rfl (fun j hj => by funext tc; simp [attemptThrow, attemptOk, hj])
  exact ⟨h.1.1.trans (by decide), h.1.2.1, h.1.2.2 3 (by decide)⟩

/-- C7 counterexample: on a 37-row `data` array the history-formatting
truncation of `formatToolResult` does produce 11 data elements, but it
never sets `truncated:true` and never writes a `contextSummary` — the
row total goes into the `_note` marker row and the `_summary` field
instead. -/
theorem format_truncation_fields_cex :
    (formatTruncateSql hist37).data.length = 11 ∧
    (formatTruncateSql hist37).truncated ≠ some true ∧
    (formatTruncateSql hist37).contextSummary = none ∧
    (formatTruncateSql hist37).summaryField = some "Retrieved 37 rows from query" := by
  decide

/-- C7 (amended): for a tool outcome whose `data` field is an array of
37 rows, the truncation applied before the result is serialized into
conversation history produces a `data` array of 11 elements — the
first 5 rows, one synthetic `_note` marker row mentioning the total of
37 rows, and the last 5 rows — plus a `_summary` field `"Retrieved 37
rows from query"`; the `truncated` and `contextSummary` fields are
passed through unchanged rather than being set. -/
theorem format_truncation_37_rows {ρ : Type} (r : HistResult ρ)
    (h : r.data.length = 37) :
    (formatTruncateSql r).data.length = 11 ∧
    (formatTruncateSql r).data =
      r.data.take 5 ++
        [HRow.note "[Showing first 5 and last 5 of 37 total rows]"] ++
        r.data.drop 32 ∧
    (formatTruncateSql r).summaryField = some "Retrieved 37 rows from query" ∧
    (formatTruncateSql r).truncated = r.truncated ∧
    (formatTruncateSql r).contextSummary = r.contextSummary := by
  have h10 : r.data.length > 10 := by omega
  have hs : (toString (37 : Nat)) = "37" := rfl
  refine ⟨?_, ?_, ?_, ?_, ?_⟩ <;>
    simp [formatTruncateSql, h10, h, List.length_take, List.length_drop, hs]

/-- C7 witness: the amended theorem evaluated at a concrete 37-row
result. -/
theorem format_truncation_37_rows_witness :
    hist37.data.length = 37 ∧
    (formatTruncateSql hist37).data.length = 11 ∧
    (formatTruncateSql hist37).summaryField = some "Retrieved 37 rows from query" :=
  ⟨by decide, (format_truncation_37_rows hist37 (by decide)).1,
   (format_truncation_37_rows hist37 (by decide)).2.2.1⟩

/-- C9: the `execute_sql` tool's successful result never carries more
than 10 rows: whenever the returned object has a `data` array, it is
exactly the first 10 of the rows the database returned (hence at most
10 long), while `rowCount` reports the full number of rows
retrieved. -/
theorem execute_sql_row_cap (Row : Type) (rowKeys : Row → List String)
    (query : Option String) (rows : List Row) (d : List Row)
    (hd : (executeSqlQuery Row rowKeys query (Except.ok rows)).data = some d) :
    d = rows.take 10 ∧ d.length ≤ 10 ∧
    (executeSqlQuery Row rowKeys query (Except.ok rows)).rowCount = some rows.length := by
  unfold executeSqlQuery at hd ⊢
  by_cases hv : (validateSqlQuery query).valid
  · simp only [hv, if_true] at hd ⊢
    by_cases h10 : rows.length > 10
    · simp [h10] at hd ⊢
      exact ⟨hd.symm, by simp [← hd, List.length_take]⟩
    · simp [h10] at hd ⊢
      exact ⟨hd.symm, by simp [← hd, List.length_take]⟩
  · by_cases ha : (validateSqlQuery query).requiresApproval <;>
      simp [hv, ha] at hd

/-- C9 witness: a valid SELECT over a 12-row database answer. -/
theorem execute_sql_row_cap_witness :
    (executeSqlQuery Nat (fun _ => ["c"]) (some "select * from frpindx")
      (Except.ok rows12)).data = some (rows12.take 10) ∧
    (rows12.take 10 = rows12.take 10 ∧ (rows12.take 10).length ≤ 10 ∧
      (executeSqlQuery Nat (fun _ => ["c"]) (some "select * from frpindx")
        (Except.ok rows12)).rowCount = some rows12.length) :=
  ⟨by decide,
   execute_sql_row_cap Nat (fun _ => ["c"]) (some "select * from frpindx") rows12
     (rows12.take 10) (by decide)⟩

/-- Any query whose trimmed, lower-cased text does not start with
`select` is rejected by `validateSqlQuery` with an error message
attached. -/
theorem validateNormalized_nonselect (normalized : List Char)
    (h : "select".data.isPrefixOf normalized = false) :
    (validateNormalized normalized).valid = false ∧
    (validateNormalized normalized).error.isSome := by
  by_cases h1 : normalized.isEmpty
  · simp only [validateNormalized, h1]
    exact ⟨rfl, rfl⟩
  ·
    by_cases h2 : matchSemiDanger normalized
    · simp only [validateNormalized, h1, h2]
      exact ⟨rfl, rfl⟩
    ·
      by_cases h3 : matchUnionSelect normalized
      · simp only [validateNormalized, h1, h2, h3]
        exact ⟨rfl, rfl⟩
      ·
        by_cases h4 : matchBlockComment normalized
        · simp only [validateNormalized, h1, h2, h3, h4]
          exact ⟨rfl, rfl⟩
        ·
          by_cases h5 : containsSub "--".data normalized
          · simp only [validateNormalized, h1, h2, h3, h4, h5]
            exact ⟨rfl, rfl⟩
          ·
            by_cases h6 : containsSub "xp_cmdshell".data normalized
            · simp only [validateNormalized, h1, h2, h3, h4, h5, h6]
              exact ⟨rfl, rfl⟩
            ·
              by_cases h7 : containsSub "sp_executesql".data normalized
              · simp only [validateNormalized, h1, h2, h3, h4, h5, h6, h7]
                exact ⟨rfl, rfl⟩
              ·
                by_cases h8 : startsKeywordSpace "update" normalized
                · simp only [validateNormalized, h1, h2, h3, h4, h5, h6, h7, h8]
                  exact ⟨rfl, rfl⟩
                ·
                  by_cases h9 : startsKeywordSpace "insert" normalized
                  · simp only [validateNormalized, h1, h2, h3, h4, h5, h6, h7, h8, h9]
                    exact ⟨rfl, rfl⟩
                  ·
                    by_cases h10 : startsKeywordSpace "delete" normalized
                    · simp only [validateNormalized, h1, h2, h3, h4, h5, h6, h7, h8, h9, h10]
                      exact ⟨rfl, rfl⟩
                    ·
                      simp only [validateNormalized, h1, h2, h3, h4, h5, h6, h7, h8, h9, h10, h, Bool.not_false]
                      exact ⟨rfl, rfl⟩

theorem validateSqlQuery_nonselect_invalid (query : Option String)
    (h : "select".data.isPrefixOf (normalizedQueryOf query) = false) :
    (validateSqlQuery query).valid = false ∧ (validateSqlQuery query).error.isSome := by
  cases query with
  | none => exact ⟨rfl, rfl⟩
  | some q =>
    simp only [normalizedQueryOf] at h
    unfold validateSqlQuery
    by_cases hq : q = ""
    · simp only [hq]
      exact ⟨rfl, rfl⟩
    · simpa [hq] using validateNormalized_nonselect (jsToLower (jsTrim q.data)) h

/-- C10: `executeSqlQuery` never sends a non-SELECT statement to the
database: for every query whose trimmed, lower-cased text does not
start with `select` (missing/non-string and empty inputs included),
validation fails, the result does not depend on the database at all,
`success` is never set, and the outcome is an error object or — for
the UPDATE/INSERT/DELETE family — a `requiresApproval` object. -/
theorem non_select_never_reaches_db (query : Option String)
    (h : "select".data.isPrefixOf (normalizedQueryOf query) = false) :
    (validateSqlQuery query).valid = false ∧
    (∀ (Row : Type) (rowKeys : Row → List String)
        (db1 db2 : Except String (List Row)),
      executeSqlQuery Row rowKeys query db1 = executeSqlQuery Row rowKeys query db2) ∧
    (∀ (Row : Type) (rowKeys : Row → List String) (db : Except String (List Row)),
      (executeSqlQuery Row rowKeys query db).success = none ∧
      ((executeSqlQuery Row rowKeys query db).requiresApproval = some true ∨
        (executeSqlQuery Row rowKeys query db).error.isSome)) := by
  have hv := validateSqlQuery_nonselect_invalid query h
  refine ⟨hv.1, ?_, ?_⟩
  · intro Row rowKeys db1 db2
    unfold executeSqlQuery
    simp [hv.1]
  · intro Row rowKeys db
    unfold executeSqlQuery
    by_cases ha : (validateSqlQuery query).requiresApproval <;>
      simp [hv.1, ha, hv.2]

/-- C10 witness: a DROP statement is rejected without consulting the
database (the outcome is identical for a healthy and for a failing
database). -/
theorem non_select_never_reaches_db_witness :
    "select".data.isPrefixOf (normalizedQueryOf (some "DROP TABLE users")) = false ∧
    (validateSqlQuery (some "DROP TABLE users")).valid = false ∧
    executeSqlQuery Unit (fun _ => []) (some "DROP TABLE users") (Except.ok [()]) =
      executeSqlQuery Unit (fun _ => []) (some "DROP TABLE users") (Except.error "down") :=
  ⟨by decide,
   (non_select_never_reaches_db (some "DROP TABLE users") (by decide)).1,
   (non_select_never_reaches_db (some "DROP TABLE users") (by decide)).2.1
     Unit (fun _ => []) (Except.ok [()]) (Except.error "down")⟩

/-- `truncateQueryResults` leaves the dispatch fields alone. -/
theorem truncateQueryResults_keeps {ρ : Type} (r : SmartRes ρ) (mt : Nat) :
    (truncateQueryResults r mt).success = r.success ∧
    (truncateQueryResults r mt).rtype = r.rtype := by
  rcases hd : r.data with _ | l
  · simp [truncateQueryResults, hd]
  · by_cases hl : l.length ≤ 10 <;> simp [truncateQueryResults, hd, hl]

/-- `truncateSearchResults` leaves the dispatch fields alone. -/
theorem truncateSearchResults_keeps {ρ : Type} (r : SmartRes ρ) (mt : Nat) :
    (truncateSearchResults r mt).success = r.success ∧
    (truncateSearchResults r mt).rtype = r.rtype := by
  rcases hd : r.results with _ | l
  · simp [truncateSearchResults, hd]
  · by_cases hl : l.length ≤ 5 <;> simp [truncateSearchResults, hd, hl]

/-- `truncateCategoryBrowse` leaves the dispatch fields alone. -/
theorem truncateCategoryBrowse_keeps {ρ : Type} (r : SmartRes ρ) (mt : Nat) :
    (truncateCategoryBrowse r mt).success = r.success ∧
    (truncateCategoryBrowse r mt).rtype = r.rtype := by
  rcases hd : r.results with _ | l
  · simp [truncateCategoryBrowse, hd]
  · by_cases hl : l.length ≤ 8 <;> simp [truncateCategoryBrowse, hd, hl]

/-- `truncateDirectLookup` leaves the dispatch fields alone. -/
theorem truncateDirectLookup_keeps {ρ : Type} (r : SmartRes ρ) (mt : Nat) :
    (truncateDirectLookup r mt).success = r.success ∧
    (truncateDirectLookup r mt).rtype = r.rtype := by
  rcases he : r.entry with _ | e
  · simp [truncateDirectLookup, he]
  · by_cases h0 : e.content.isEmpty
    · simp [truncateDirectLookup, he, h0]
    · by_cases h1 : e.content.length ≤ mt <;> simp [truncateDirectLookup, he, h0, h1]

/-- Applying `truncateQueryResults` twice is applying it once. -/
theorem truncateQueryResults_idem {ρ : Type} (r : SmartRes ρ) (mt : Nat) :
    truncateQueryResults (truncateQueryResults r mt) mt = truncateQueryResults r mt := by
  rcases hd : r.data with _ | l
  · simp only [truncateQueryResults, hd]
  · by_cases hl : l.length ≤ 10
    · simp only [truncateQueryResults, hd, hl, if_true]
    · have h10 : (l.take 10).length ≤ 10 := by simp
      simp only [truncateQueryResults, hd, hl, if_false, h10, if_true]

/-- Applying `truncateSearchResults` twice is applying it once. -/
theorem truncateSearchResults_idem {ρ : Type} (r : SmartRes ρ) (mt : Nat) :
    truncateSearchResults (truncateSearchResults r mt) mt = truncateSearchResults r mt := by
  rcases hd : r.results with _ | l
  · simp only [truncateSearchResults, hd]
  · by_cases hl : l.length ≤ 5
    · simp only [truncateSearchResults, hd, hl, if_true]
    · have h5 : (l.take 5).length ≤ 5 := by simp
      simp only [truncateSearchResults, hd, hl, if_false, h5, if_true]

/-- Applying `truncateCategoryBrowse` twice is applying it once. -/
theorem truncateCategoryBrowse_idem {ρ : Type} (r : SmartRes ρ) (mt : Nat) :
    truncateCategoryBrowse (truncateCategoryBrowse r mt) mt = truncateCategoryBrowse r mt := by
  rcases hd : r.results with _ | l
  · simp only [truncateCategoryBrowse, hd]
  · by_cases hl : l.length ≤ 8
    · simp only [truncateCategoryBrowse, hd, hl, if_true]
    · have h8 : (l.take 8).length ≤ 8 := by simp
      simp only [truncateCategoryBrowse, hd, hl, if_false, h8, if_true]

/-- Applying `truncateDirectLookup` twice is applying it once: the
re-truncated content is the same first-`maxTokens` characters followed
by the same ellipsis. -/
theorem truncateDirectLookup_idem {ρ : Type} (r : SmartRes ρ) (mt : Nat) :
    truncateDirectLookup (truncateDirectLookup r mt) mt = truncateDirectLookup r mt := by
  rcases he : r.entry with _ | e
  · simp only [truncateDirectLookup, he]
  · by_cases h0 : e.content.isEmpty
    · simp only [truncateDirectLookup, he, h0, if_true]
    · by_cases h1 : e.content.length ≤ mt
      · simp [truncateDirectLookup, he, h0, h1]
      · have hlen : (e.content.take mt).length = mt := by
          simp only [List.length_take]
          omega
        have hne : (e.content.take mt ++ "...".data).isEmpty = false := by
          simp [List.isEmpty_iff]
        have hgt : ¬ ((e.content.take mt ++ "...".data).length ≤ mt) := by
          have hd3 : ("...".data).length = 3 := rfl
          simp only [List.length_append, hlen, hd3]
          omega
        have htk : (e.content.take mt ++ "...".data).take mt = e.content.take mt :=
          List.take_left' hlen
        simp [truncateDirectLookup, he, h0, h1, hne, hgt, htk]

/-- Applying `smartTruncate` twice is applying it once: the dispatch
fields survive the first pass, and every branch truncator is
idempotent. -/
theorem smartTruncate_idem {ρ : Type} (r : SmartRes ρ) (mt : Nat) :
    smartTruncate (smartTruncate r mt) mt = smartTruncate r mt := by
  rcases hs : r.success with _ | b
  · simp only [smartTruncate, hs]
  · cases b with
    | false => simp only [smartTruncate, hs]
    | true =>
      rcases ht : r.rtype with _ | t
      · have hk := truncateQueryResults_keeps r mt
        have hs' : (truncateQueryResults r mt).success = some true := by rw [hk.1, hs]
        have ht' : (truncateQueryResults r mt).rtype = none := by rw [hk.2, ht]
        simp only [smartTruncate, hs, ht, hs', ht', truncateQueryResults_idem]
      · by_cases h1 : t = ""
        · have hk := truncateQueryResults_keeps r mt
          have hs' : (truncateQueryResults r mt).success = some true := by rw [hk.1, hs]
          have ht' : (truncateQueryResults r mt).rtype = some t := by rw [hk.2, ht]
          simp [smartTruncate, hs, ht, hs', ht', h1, truncateQueryResults_idem]
        · by_cases h2 : t = "search_results"
          · have hk := truncateSearchResults_keeps r mt
            have hs' : (truncateSearchResults r mt).success = some true := by rw [hk.1, hs]
            have ht' : (truncateSearchResults r mt).rtype = some t := by rw [hk.2, ht]
            simp [smartTruncate, hs, ht, hs', ht', h1, h2, truncateSearchResults_idem]
          · by_cases h3 : t = "category_browse"
            · have hk := truncateCategoryBrowse_keeps r mt
              have hs' : (truncateCategoryBrowse r mt).success = some true := by rw [hk.1, hs]
              have ht' : (truncateCategoryBrowse r mt).rtype = some t := by rw [hk.2, ht]
              simp [smartTruncate, hs, ht, hs', ht', h1, h2, h3, truncateCategoryBrowse_idem]
            · by_cases h4 : t = "direct_lookup"
              · have hk := truncateDirectLookup_keeps r mt
                have hs' : (truncateDirectLookup r mt).success = some true := by rw [hk.1, hs]
                have ht' : (truncateDirectLookup r mt).rtype = some t := by rw [hk.2, ht]
                simp [smartTruncate, hs, ht, hs', ht', h1, h2, h3, h4, truncateDirectLookup_idem]
              · have hk := truncateQueryResults_keeps r mt
                have hs' : (truncateQueryResults r mt).success = some true := by rw [hk.1, hs]
                have ht' : (truncateQueryResults r mt).rtype = some t := by rw [hk.2, ht]
                simp [smartTruncate, hs, ht, hs', ht', h1, h2, h3, h4, truncateQueryResults_idem]

/-- The history-formatting truncation is idempotent on data arrays of
at most 11 elements (≤ 10 passes through; exactly 11 reproduces the
same first-5/marker/last-5 split with the same counts). -/
theorem formatTruncateSql_idem_of_le {ρ : Type} (p : HistResult ρ)
    (hle : p.data.length ≤ 11) :
    formatTruncateSql (formatTruncateSql p) = formatTruncateSql p := by
  by_cases h10 : p.data.length > 10
  · obtain ⟨d, tr, cs, sf⟩ := p
    simp only at h10 hle
    have h11 : d.length = 11 := by omega
    have hs11 : toString (11 : Nat) = "11" := rfl
    have hfp : formatTruncateSql (⟨d, tr, cs, sf⟩ : HistResult ρ) =
        ⟨d.take 5 ++ [HRow.note "[Showing first 5 and last 5 of 11 total rows]"] ++ d.drop 6,
         tr, cs, some "Retrieved 11 rows from query"⟩ := by
      simp [formatTruncateSql, h10, h11, hs11]
    rw [hfp]
    have hA : (d.take 5).length = 5 := by
      simp only [List.length_take]
      omega
    have hAB : (d.take 5 ++
        [(HRow.note "[Showing first 5 and last 5 of 11 total rows]" : HRow ρ)]).length = 6 := by
      simp [hA]
    have htk : ((d.take 5 ++
        [(HRow.note "[Showing first 5 and last 5 of 11 total rows]" : HRow ρ)]) ++
        d.drop 6).take 5 = d.take 5 := by
      rw [List.append_assoc, List.take_left' hA]
    have hdr : ((d.take 5 ++
        [(HRow.note "[Showing first 5 and last 5 of 11 total rows]" : HRow ρ)]) ++
        d.drop 6).drop 6 = d.drop 6 :=
      List.drop_left' hAB
    have hlen2 : ((d.take 5 ++
        [(HRow.note "[Showing first 5 and last 5 of 11 total rows]" : HRow ρ)]) ++
        d.drop 6).length = 11 := by
      simp [List.length_append, hA, List.length_drop, h11]
    simp only [formatTruncateSql, hlen2, htk, hdr, hs11, gt_iff_lt, Nat.lt_irrefl]
    rfl
  · have hfp : formatTruncateSql p = p := by simp [formatTruncateSql, h10]
    rw [hfp, hfp]

/-- C8 counterexample: the history-formatting truncation of
`formatToolResult` is not idempotent: a 12-row result truncates to 11
elements, and a second application re-truncates them, replacing the
marker row and summary (now claiming 11 total rows). -/
theorem truncation_not_idempotent_cex :
    formatTruncateSql (formatTruncateSql hist12) ≠ formatTruncateSql hist12 := by
  decide

/-- C8 (amended): the `smartTruncate` family is idempotent — applying
it twice yields the value of applying it once, for every tool result
and token budget; the history-formatting truncation in
`formatToolResult` is idempotent only for `data` arrays of at most 11
elements, and re-truncates longer arrays' output on a second pass. -/
theorem truncation_idempotence {ρ : Type} :
    (∀ (r : SmartRes ρ) (mt : Nat),
      smartTruncate (smartTruncate r mt) mt = smartTruncate r mt) ∧
    (∀ p : HistResult ρ, p.data.length ≤ 11 →
      formatTruncateSql (formatTruncateSql p) = formatTruncateSql p) :=
  ⟨fun r mt => smartTruncate_idem r mt, fun p h => formatTruncateSql_idem_of_le p h⟩

/-- C8 witness: the amended theorem evaluated on a successful 12-row
SQL result and a 5-row history result. -/
theorem truncation_idempotence_witness :
    (smartTruncate (smartTruncate sres12 1500) 1500 = smartTruncate sres12 1500) ∧
    hist5.data.length ≤ 11 ∧
    formatTruncateSql (formatTruncateSql hist5) = formatTruncateSql hist5 :=
  ⟨(truncation_idempotence (ρ := Nat)).1 sres12 1500, by decide,
   (truncation_idempotence (ρ := Nat)).2 hist5 (by decide)⟩

/-- Whenever every provider stream opens, every exit of the loop body
emits a final `done` frame. -/
theorem chatLoopGo_done (cfg : LoopConfig) (turns : Nat → Turn) (execT : ChatToolCall → ToolEffect)
    (hok : ∀ i, turns i ≠ Turn.streamErr) :
    ∀ (fuel iter : Nat) (msgs : List ChatMsg) (acc : List Frame),
      iter < cfg.maxIterations → cfg.maxIterations ≤ iter + fuel →
      (chatLoopGo cfg turns execT msgs iter acc fuel).frames.getLast? = some Frame.done := by
  intro fuel
  induction fuel with
  | zero => intro iter msgs acc h1 h2; omega
  | succ fuel ih =>
    intro iter msgs acc h1 h2
    cases hT : turns (iter + 1) with
    | streamErr => exact absurd hT (hok (iter + 1))
    | ok textDeltas toolCalls =>
      simp only [chatLoopGo, hT]
      by_cases hc : (shouldContinueAfter cfg (iter + 1) (validCallsOf toolCalls) &&
          decide (iter + 1 < cfg.maxIterations)) = true
      · rw [if_pos hc]
        have hlt : iter + 1 < cfg.maxIterations := by
          have := (Bool.and_eq_true_iff.mp hc).2
          simpa using this
        exact ih (iter + 1) _ _ hlt (by omega)
      · rw [if_neg hc]
        simp [List.getLast?_concat]

/-- The iteration counter of the loop never exceeds the cap. -/
theorem chatLoopGo_le (cfg : LoopConfig) (turns : Nat → Turn) (execT : ChatToolCall → ToolEffect) :
    ∀ (fuel iter : Nat) (msgs : List ChatMsg) (acc : List Frame),
      iter < cfg.maxIterations →
      (chatLoopGo cfg turns execT msgs iter acc fuel).iterations ≤ cfg.maxIterations := by
  intro fuel
  induction fuel with
  | zero => intro iter msgs acc h1; simpa [chatLoopGo] using h1.le
  | succ fuel ih =>
    intro iter msgs acc h1
    cases hT : turns (iter + 1) with
    | streamErr => simp only [chatLoopGo, hT]; omega
    | ok textDeltas toolCalls =>
      simp only [chatLoopGo, hT]
      by_cases hc : (shouldContinueAfter cfg (iter + 1) (validCallsOf toolCalls) &&
          decide (iter + 1 < cfg.maxIterations)) = true
      · rw [if_pos hc]
        have hlt : iter + 1 < cfg.maxIterations := by
          have := (Bool.and_eq_true_iff.mp hc).2
          simpa using this
        exact ih (iter + 1) _ _ hlt
      · rw [if_neg hc]
        simpa using h1

/-- Under the iteration-cap scenario — looping enabled and every
remaining turn an analysis-only turn — the loop runs to the cap
exactly and stops there. -/
theorem chatLoopGo_cap (cfg : LoopConfig) (turns : Nat → Turn) (execT : ChatToolCall → ToolEffect)
    (hloop : cfg.enableLoop = true) :
    ∀ (fuel iter : Nat) (msgs : List ChatMsg) (acc : List Frame),
      iter < cfg.maxIterations → cfg.maxIterations ≤ iter + fuel →
      (∀ i, iter < i → i ≤ cfg.maxIterations → analysisOnlyTurn (turns i) = true) →
      (chatLoopGo cfg turns execT msgs iter acc fuel).iterations = cfg.maxIterations ∧
      (chatLoopGo cfg turns execT msgs iter acc fuel).reason = TermReason.maxIterationsCap := by
  intro fuel
  induction fuel with
  | zero => intro iter msgs acc h1 h2 _; omega
  | succ fuel ih =>
    intro iter msgs acc h1 h2 hturn
    have ht := hturn (iter + 1) (by omega) (by omega)
    cases hT : turns (iter + 1) with
    | streamErr => rw [hT] at ht; simp [analysisOnlyTurn] at ht
    | ok textDeltas toolCalls =>
      rw [hT] at ht
      simp only [analysisOnlyTurn, Bool.and_eq_true, Bool.not_eq_true'] at ht
      obtain ⟨⟨⟨hA, hB⟩, hC⟩, hD⟩ := ht
      have hvalid : 0 < (validCallsOf toolCalls).length := by
        rcases List.any_eq_true.mp hA with ⟨tc, htc, _⟩
        exact List.length_pos.mpr (List.ne_nil_of_mem htc)
      have hA2 : ∃ x ∈ validCallsOf toolCalls, x.name ∈ analysisToolNames := by
        simpa using hA
      have hB2 : ∀ x ∈ validCallsOf toolCalls, ¬ x.name = "continue_agent" := by
        simpa using hB
      have hC2 : ∀ x ∈ validCallsOf toolCalls, ¬ x.name = "complete_task" := by
        simpa using hC
      have hD2 : ∀ x ∈ validCallsOf toolCalls, ¬ x.name = "prepare_sql_for_user" := by
        simpa using hD
      simp only [chatLoopGo, hT]
      by_cases hlt : iter + 1 < cfg.maxIterations
      · have hcond : (shouldContinueAfter cfg (iter + 1) (validCallsOf toolCalls) &&
            decide (iter + 1 < cfg.maxIterations)) = true := by
          simp [shouldContinueAfter, hloop, hvalid, hA, hA2, hB, hB2, hC, hC2, hD, hD2, hlt]
        rw [if_pos hcond]
        exact ih (iter + 1) _ _ hlt (by omega)
          (fun i hi1 hi2 => hturn i (by omega) hi2)
      · have hscf : shouldContinueAfter cfg (iter + 1) (validCallsOf toolCalls) = false := by
          simp [shouldContinueAfter, hloop, hvalid, hA, hA2, hB, hB2, hC, hC2, hD, hD2, hlt]
        have hcond : ¬ ((shouldContinueAfter cfg (iter + 1) (validCallsOf toolCalls) &&
            decide (iter + 1 < cfg.maxIterations)) = true) := by
          simp [hscf]
        rw [if_neg hcond]
        have hne : (validCallsOf toolCalls).isEmpty = false := by
          rcases List.any_eq_true.mp hA with ⟨tc, htc, _⟩
          simp [List.isEmpty_iff, List.ne_nil_of_mem htc]
        refine ⟨?_, ?_⟩
        · show iter + 1 = cfg.maxIterations
          omega
        · show classifyExit cfg (validCallsOf toolCalls)
            (shouldContinueAfter cfg (iter + 1) (validCallsOf toolCalls)) =
              TermReason.maxIterationsCap
          simp [classifyExit, hne, hloop, hscf, hC, hC2, hD, hD2, hA, hA2]

/-- C1 counterexample: when the provider call fails while opening the
stream, handleChat emits a single `error` frame and breaks out of the
loop; no `done` frame follows, so the stream does not end with `done`
as the claim states. -/
theorem stream_error_no_done_cex :
    (chatLoop cfgDefault turnsErr execNoop).frames =
      [Frame.conversation_id, Frame.error "AI API error occurred"] ∧
    Frame.done ∉ (chatLoop cfgDefault turnsErr execNoop).frames := by
  decide

/-- C1 (amended): for every chat request that reaches the streaming
phase with a positive iteration cap, the SSE stream ends with a frame
of type `done` provided every iteration's provider stream opens
successfully; when a provider/adapter error occurs, the stream instead
ends with a single `error` frame and no `done` frame is sent. -/
theorem stream_done_when_no_provider_error (cfg : LoopConfig) (turns : Nat → Turn)
    (execT : ChatToolCall → ToolEffect) (hmax : 1 ≤ cfg.maxIterations)
    (hok : ∀ i, turns i ≠ Turn.streamErr) :
    (chatLoop cfg turns execT).frames.getLast? = some Frame.done := by
  unfold chatLoop
  rw [if_pos (by omega : 0 < cfg.maxIterations)]
  exact chatLoopGo_done cfg turns execT hok cfg.maxIterations 0 _ _ (by omega) (by omega)

/-- C1 witness: a plain-text conversation under the default
configuration ends with `done`. -/
theorem stream_done_when_no_provider_error_witness :
    (chatLoop cfgDefault turnsText execNoop).frames.getLast? = some Frame.done :=
  stream_done_when_no_provider_error cfgDefault turnsText execNoop (by decide)
    (fun i => by simp [turnsText])

/-- C2: with looping enabled, `maxIterations = k ≥ 1`, and a model
that issues at least one valid analysis-tool call and no
`continue_agent`/`complete_task`/`prepare_sql_for_user` on every
iteration, the conversation loop executes exactly `k` iterations and
terminates with the max-iterations termination reason; the iteration
counter never exceeds `maxIterations` for any request. -/
theorem loop_iteration_cap (cfg : LoopConfig) (turns : Nat → Turn)
    (execT : ChatToolCall → ToolEffect) (k : Nat)
    (hloop : cfg.enableLoop = true) (hk : cfg.maxIterations = k) (hk1 : 1 ≤ k)
    (hturn : ∀ i, 1 ≤ i → i ≤ k → analysisOnlyTurn (turns i) = true) :
    (chatLoop cfg turns execT).iterations = k ∧
    (chatLoop cfg turns execT).reason = TermReason.maxIterationsCap ∧
    (∀ (cfg2 : LoopConfig) (turns2 : Nat → Turn) (execT2 : ChatToolCall → ToolEffect),
      (chatLoop cfg2 turns2 execT2).iterations ≤ cfg2.maxIterations) := by
  subst hk
  have h := chatLoopGo_cap cfg turns execT hloop cfg.maxIterations 0 cfg.initMessages
      [Frame.conversation_id] (by omega) (by omega)
      (fun i hi1 hi2 => hturn i (by omega) hi2)
  refine ⟨?_, ?_, ?_⟩
  · unfold chatLoop
    rw [if_pos (by omega : 0 < cfg.maxIterations)]
    exact h.1
  · unfold chatLoop
    rw [if_pos (by omega : 0 < cfg.maxIterations)]
    exact h.2
  · intro cfg2 turns2 execT2
    unfold chatLoop
    by_cases h0 : 0 < cfg2.maxIterations
    · rw [if_pos h0]
      exact chatLoopGo_le cfg2 turns2 execT2 _ 0 _ _ h0
    · rw [if_neg h0]
      simp

/-- C2 witness: a cap of three iterations with an `execute_sql` call
every turn runs exactly three iterations. -/
theorem loop_iteration_cap_witness :
    (chatLoop cfgCap3 turnsSql execNoop).iterations = 3 ∧
    (chatLoop cfgCap3 turnsSql execNoop).reason = TermReason.maxIterationsCap :=
  ⟨(loop_iteration_cap cfgCap3 turnsSql execNoop 3 rfl rfl (by decide)
      (fun i h1 h2 => by rfl)).1,
   (loop_iteration_cap cfgCap3 turnsSql execNoop 3 rfl rfl (by decide)
      (fun i h1 h2 => by rfl)).2.1⟩

/-- C3: when the first turn's stream produces zero valid tool calls
(no accumulated call with a non-empty name), the loop terminates after
exactly one iteration with the model-no-tools termination reason,
saving the assistant message (the turn's streamed text) and emitting a
final `done` frame. -/
theorem no_tools_single_iteration (cfg : LoopConfig) (turns : Nat → Turn)
    (execT : ChatToolCall → ToolEffect) (textDeltas : List String) (tcs : List ChatToolCall)
    (hmax : 1 ≤ cfg.maxIterations)
    (h1 : turns 1 = Turn.ok textDeltas tcs)
    (hnames : ∀ tc ∈ tcs, tc.name = "") :
    (chatLoop cfg turns execT).iterations = 1 ∧
    (chatLoop cfg turns execT).reason = TermReason.modelNoTools ∧
    (chatLoop cfg turns execT).frames.getLast? = some Frame.done ∧
    (chatLoop cfg turns execT).savedAssistant =
      some (String.join textDeltas, if tcs.isEmpty then none else some tcs) := by
  have hvalid : validCallsOf tcs = [] := by
    simp only [validCallsOf, List.filter_eq_nil_iff]
    intro tc htc
    simpa using hnames tc htc
  obtain ⟨m, hm⟩ : ∃ m, cfg.maxIterations = m + 1 := ⟨cfg.maxIterations - 1, by omega⟩
  unfold chatLoop
  rw [if_pos (by omega : 0 < cfg.maxIterations)]
  rw [hm]
  simp only [chatLoopGo, Nat.zero_add, h1]
  have hsc : shouldContinueAfter cfg 1 (validCallsOf tcs) = false := by
    rw [hvalid]
    cases he : cfg.enableLoop <;> simp [shouldContinueAfter, he]
  have hcond : ¬ ((shouldContinueAfter cfg 1 (validCallsOf tcs) &&
      decide (1 < cfg.maxIterations)) = true) := by
    simp [hsc]
  rw [if_neg hcond]
  refine ⟨rfl, ?_, ?_, ?_⟩
  · show classifyExit cfg (validCallsOf tcs)
      (shouldContinueAfter cfg 1 (validCallsOf tcs)) = TermReason.modelNoTools
    simp [classifyExit, hvalid]
  · exact List.getLast?_concat _
  · have hj : String.join ([] : List String) = "" := rfl
    simp [respAppends, hvalid, hj]

/-- C3 witness: a model that answers `"4"` with no tool calls stops
after one iteration under the default configuration. -/
theorem no_tools_single_iteration_witness :
    (chatLoop cfgDefault turnsText execNoop).iterations = 1 ∧
    (chatLoop cfgDefault turnsText execNoop).reason = TermReason.modelNoTools ∧
    (chatLoop cfgDefault turnsText execNoop).frames.getLast? = some Frame.done ∧
    (chatLoop cfgDefault turnsText execNoop).savedAssistant =
      some (String.join ["4"], if ([] : List ChatToolCall).isEmpty then none else some []) :=
  no_tools_single_iteration cfgDefault turnsText execNoop ["4"] [] (by decide) rfl
    (fun tc htc => by simp at htc)
